import Mathlib

/-!
Verification of the quartz database facade
(src/xapian-core/backends/quartz/quartz_database.cc).

The facade orchestrates six per-table managers (record, attribute,
term list, lexicon, posting list, position list).  Only the facade
source is in the repository snapshot; the table managers are modelled
from the specification (each such definition carries a doc comment
beginning "Modelled from the spec:").  The facade functions themselves
are translated directly from the C++ source.
-/

/-! ## Association-list primitives

The on-disk tables are keyed maps; we embed them as association lists
with unique keys (the C++ side uses std::map / B-tree tables). -/

def alookup [DecidableEq κ] : List (κ × β) → κ → Option β
  | [], _ => none
  | p :: rest, k => if p.1 = k then some p.2 else alookup rest k

def aset [DecidableEq κ] : List (κ × β) → κ → β → List (κ × β)
  | [], k, v => [(k, v)]
  | p :: rest, k, v => if p.1 = k then (k, v) :: rest else p :: aset rest k v

def aerase [DecidableEq κ] (l : List (κ × β)) (k : κ) : List (κ × β) :=
  l.filter (fun p => p.1 != k)

/-- Insert a posting `(docid, wdf, doclen)` into a posting list kept in
ascending docid order. -/
def insertPosting : List (Nat × Nat × Nat) → (Nat × Nat × Nat) → List (Nat × Nat × Nat)
  | [], e => [e]
  | x :: xs, e => if e.1 ≤ x.1 then e :: x :: xs else x :: insertPosting xs e

/-! ## Data model (om types) -/

/-- A term of a document: name, within-document frequency, cached term
frequency and the occurrence positions (OmDocumentTerm in the source). -/
structure OmDocumentTerm where
  tname : String
  wdf : Nat
  termfreq : Nat
  positions : List Nat
deriving DecidableEq, Repr

/-- Full document contents: record data, per-key attributes and terms
(OmDocumentContents in the source; `terms` is a std::map keyed by term
name, embedded as its entry list with pairwise-distinct names). -/
structure OmDocumentContents where
  data : String
  keys : List (Nat × String)
  terms : List OmDocumentTerm
deriving DecidableEq, Repr

/-- The six quartz tables plus the stored aggregates.  `record` maps a
docid to its data and stored length; `total_length` and `doccount` are
the dedicated aggregate entries of the record table. -/
structure QuartzState where
  record : List (Nat × (String × Nat))
  total_length : Nat
  doccount : Nat
  attributes : List ((Nat × Nat) × String)
  termlist : List (Nat × (List (String × Nat) × Nat))
  lexicon : List (String × Nat)
  postlist : List (String × List (Nat × Nat × Nat))
  positionlist : List ((Nat × String) × List Nat)
deriving DecidableEq, Repr

/-- The error taxonomy of the facade (Om*Error classes in the source);
`injected` stands for an arbitrary error raised by the table layer. -/
inductive OmErr
  | databaseModified
  | docNotFound (msg : String)
  | invalidOperation (msg : String)
  | unimplemented (msg : String)
  | internalErr (msg : String)
  | injected (n : Nat)
deriving DecidableEq, Repr

/-! ## Table managers (spec-modelled: their sources are not in src/) -/

namespace QuartzRecordManager

/-- Modelled from the spec: the record allocator returns the next unused
docid; it never returns 0. -/
def alloc_docid (record : List (Nat × (String × Nat))) : Nat :=
  (record.map Prod.fst).foldr max 0 + 1

/-- Modelled from the spec: quartz_record.h add_record allocates the next
unused docid, stores `(docid, (data, doclen))` and updates the stored
doccount aggregate; total_length is updated separately through
modify_total_length (the compensating update named by the spec). -/
def add_record (s : QuartzState) (data : String) (doclen : Nat) : Nat × QuartzState :=
  (alloc_docid s.record,
   { s with record := aset s.record (alloc_docid s.record) (data, doclen),
            doccount := s.doccount + 1 })

/-- Modelled from the spec: get_record fetches the data by primary key. -/
def get_record (s : QuartzState) (did : Nat) : Option String :=
  (alookup s.record did).map Prod.fst

/-- Modelled from the spec: delete_record removes the entry and
decrements the stored doccount aggregate. -/
def delete_record (s : QuartzState) (did : Nat) : QuartzState :=
  { s with record := aerase s.record did,
           doccount := s.doccount - 1 }

/-- Modelled from the spec: the stored doccount aggregate. -/
def get_doccount (s : QuartzState) : Nat := s.doccount

/-- Modelled from the spec: the stored total_length aggregate. -/
def get_total_length (s : QuartzState) : Nat := s.total_length

/-- Modelled from the spec: compensating update of the stored total
length (insert passes old=0, delete passes new=0). -/
def modify_total_length (s : QuartzState) (old_doclen new_doclen : Nat) : QuartzState :=
  { s with total_length := s.total_length - old_doclen + new_doclen }

end QuartzRecordManager

namespace QuartzAttributesManager

/-- Modelled from the spec: store one per-document key/value attribute
(the source call order is add_attribute(table, value, did, keyno)). -/
def add_attribute (s : QuartzState) (value : String) (did : Nat) (keyno : Nat) : QuartzState :=
  { s with attributes := aset s.attributes (did, keyno) value }

/-- Modelled from the spec: collect every attribute stored for `did` as
a key-id to value mapping. -/
def get_all_attributes (s : QuartzState) (did : Nat) : List (Nat × String) :=
  (s.attributes.filter (fun p => p.1.1 == did)).map (fun p => (p.1.2, p.2))

end QuartzAttributesManager

namespace QuartzLexicon

/-- Modelled from the spec: lexicon lookup returning the stored
termfreq when the term is present. -/
def get_entry (lexicon : List (String × Nat)) (tname : String) : Option Nat :=
  alookup lexicon tname

/-- Modelled from the spec: increment the termfreq of `tname`, creating
the entry with frequency 1 when it is absent. -/
def increment_termfreq (s : QuartzState) (tname : String) : QuartzState :=
  { s with lexicon :=
      match alookup s.lexicon tname with
      | none => aset s.lexicon tname 1
      | some f => aset s.lexicon tname (f + 1) }

/-- Modelled from the spec: decrement the termfreq of `tname`, removing
the entry when the frequency reaches 0. -/
def decrement_termfreq (s : QuartzState) (tname : String) : QuartzState :=
  { s with lexicon :=
      match alookup s.lexicon tname with
      | none => s.lexicon
      | some f => if f ≤ 1 then aerase s.lexicon tname else aset s.lexicon tname (f - 1) }

end QuartzLexicon

namespace QuartzTermList

/-- Modelled from the spec: write the term list (term name, wdf pairs)
and the document length for `did`; the final flag marks replacements
and is always false on the insert path of the source. -/
def set_entries (s : QuartzState) (did : Nat) (terms : List OmDocumentTerm)
    (doclen : Nat) (_is_replacement : Bool) : QuartzState :=
  { s with termlist := aset s.termlist did (terms.map (fun u => (u.tname, u.wdf)), doclen) }

/-- Modelled from the spec: remove the term list of `did`. -/
def delete_termlist (s : QuartzState) (did : Nat) : QuartzState :=
  { s with termlist := aerase s.termlist did }

/-- Modelled from the spec: the document length stored with the term
list of `did` (get_doclength on an opened QuartzTermList). -/
def get_doclength_stored (s : QuartzState) (did : Nat) : Nat :=
  ((alookup s.termlist did).map Prod.snd).getD 0

end QuartzTermList

namespace QuartzPostList

/-- Modelled from the spec: insert `(did, wdf, doclen)` into the posting
list of `tname`, kept sorted by docid. -/
def add_entry (s : QuartzState) (tname : String) (did wdf doclen : Nat) : QuartzState :=
  let entries := (alookup s.postlist tname).getD []
  { s with postlist := aset s.postlist tname (insertPosting entries (did, wdf, doclen)) }

/-- Modelled from the spec: remove the entry for `did` from the posting
list of `tname`. -/
def delete_entry (s : QuartzState) (tname : String) (did : Nat) : QuartzState :=
  { s with postlist :=
      match alookup s.postlist tname with
      | none => s.postlist
      | some entries => aset s.postlist tname (entries.filter (fun e => e.1 != did)) }

end QuartzPostList

namespace QuartzPositionList

/-- Modelled from the spec: store the position list of `(did, tname)`. -/
def set_positionlist (s : QuartzState) (did : Nat) (tname : String)
    (positions : List Nat) : QuartzState :=
  { s with positionlist := aset s.positionlist (did, tname) positions }

/-- Modelled from the spec: remove the position list of `(did, tname)`. -/
def delete_positionlist (s : QuartzState) (did : Nat) (tname : String) : QuartzState :=
  { s with positionlist := aerase s.positionlist (did, tname) }

end QuartzPositionList

/-! ## Read-side facade (translated from QuartzDatabase in the source) -/

namespace QuartzDatabase

/-- One attempt of the body of do_get_document_internal: read the
record, all attributes, the term list (with per-term termfreq from the
lexicon) and each position list; `none` embeds the document-not-found
error raised when the record or term list of `did` is absent. -/
def do_get_document_once (s : QuartzState) (did : Nat) : Option OmDocumentContents :=
  match QuartzRecordManager.get_record s did with
  | none => none
  | some data =>
    match alookup s.termlist did with
    | none => none
    | some entry =>
      some { data := data,
             keys := QuartzAttributesManager.get_all_attributes s did,
             terms := entry.1.map (fun tw =>
               { tname := tw.1,
                 wdf := tw.2,
                 termfreq := (QuartzLexicon.get_entry s.lexicon tw.1).getD 0,
                 positions := (alookup s.positionlist (did, tw.1)).getD [] }) }

/-- get_doccount_internal: the stored doccount aggregate of the record
table. -/
def get_doccount_internal (s : QuartzState) : Nat :=
  QuartzRecordManager.get_doccount s

/-- get_avlength_internal, translated from the source: 0 when the
doccount is 0, otherwise the stored total length divided by it. -/
def get_avlength_internal (s : QuartzState) : Nat :=
  if get_doccount_internal s = 0 then 0
  else QuartzRecordManager.get_total_length s / get_doccount_internal s

/-- get_termfreq, translated from the source: the out-parameter starts
at 0 and is overwritten only when the lexicon holds the term. -/
def get_termfreq (s : QuartzState) (tname : String) : Nat :=
  match QuartzLexicon.get_entry s.lexicon tname with
  | none => 0
  | some f => f

/-- term_exists, translated from the source: lexicon membership. -/
def term_exists (s : QuartzState) (tname : String) : Bool :=
  (QuartzLexicon.get_entry s.lexicon tname).isSome

end QuartzDatabase

/-- Well-formed lexicon: every stored termfreq is at least 1 (entries
are created at 1 by increment_termfreq and removed by
decrement_termfreq when they would reach 0). -/
def lexiconWF (s : QuartzState) : Prop :=
  ∀ p ∈ s.lexicon, 1 ≤ p.2

/-! ## Write-side facade (translated from QuartzWritableDatabase) -/

namespace QuartzWritableDatabase

/-- The document length computed at the top of do_add_document: the sum
of wdf over the terms of the document. -/
def docLength (document : OmDocumentContents) : Nat :=
  document.terms.foldl (fun acc u => acc + u.wdf) 0

/-- One iteration of the final loop of do_add_document: increment the
lexicon termfreq, add the posting entry and store the position list of
one term (source order). -/
def addTermStep (did new_doclen : Nat) (s : QuartzState) (u : OmDocumentTerm) : QuartzState :=
  let s1 := QuartzLexicon.increment_termfreq s u.tname
  let s2 := QuartzPostList.add_entry s1 u.tname did u.wdf new_doclen
  QuartzPositionList.set_positionlist s2 did u.tname u.positions

/-- The state-transforming body of do_add_document, translated from the
source: add the record (allocating the docid), store the attributes,
write the term list, add the new document length to the stored total
length (old length 0), then process each term. -/
def do_add_document_pure (s : QuartzState) (document : OmDocumentContents) :
    Nat × QuartzState :=
  let new_doclen := docLength document
  let r := QuartzRecordManager.add_record s document.data new_doclen
  let did := r.1
  let s1 := r.2
  let s2 := document.keys.foldl (fun st kv => QuartzAttributesManager.add_attribute st kv.2 did kv.1) s1
  let s3 := QuartzTermList.set_entries s2 did document.terms new_doclen false
  let s4 := QuartzRecordManager.modify_total_length s3 0 new_doclen
  let s5 := document.terms.foldl (addTermStep did new_doclen) s4
  (did, s5)

/-- One iteration of the deletion loop of do_delete_document: delete the
posting entry, delete the position list and decrement the lexicon
termfreq of one term (source order). -/
def delTermStep (did : Nat) (s : QuartzState) (u : OmDocumentTerm) : QuartzState :=
  let s1 := QuartzPostList.delete_entry s u.tname did
  let s2 := QuartzPositionList.delete_positionlist s1 did u.tname
  QuartzLexicon.decrement_termfreq s2 u.tname

/-- The try-block of do_delete_document, translated from the source:
process each term of the materialised document, read the old document
length from the term list and subtract it from the stored total length
(new length 0), then (attributes are NOT removed: `FIXME: implement` in
the source) delete the term list and the record. -/
def do_delete_document_body (s : QuartzState) (did : Nat)
    (document : OmDocumentContents) : QuartzState :=
  let s1 := document.terms.foldl (delTermStep did) s
  let old_doclen := QuartzTermList.get_doclength_stored s1 did
  let s2 := QuartzRecordManager.modify_total_length s1 old_doclen 0
  let s3 := QuartzTermList.delete_termlist s2 did
  QuartzRecordManager.delete_record s3 did

/-- do_delete_document, error-free path: first materialise the current
document through the read-side get_document path (`none` when that
raises), then run the deletion body. -/
def do_delete_document_pure (s : QuartzState) (did : Nat) : Option QuartzState :=
  match QuartzDatabase.do_get_document_once s did with
  | none => none
  | some document => some (do_delete_document_body s did document)

end QuartzWritableDatabase

/-! ## Reader-snapshot retry loop of do_get_document_internal -/

/-- Outcome of one read attempt of the body of
do_get_document_internal: either the document is assembled, or some
table read raises OmDatabaseModifiedError. -/
inductive ReadAttempt (α : Type)
  | ok (a : α)
  | modified
deriving DecidableEq, Repr

/-- How control leaves do_get_document_internal: a value is returned,
the caught OmDatabaseModifiedError is re-raised by `throw;`, or the
while loop exits and control falls off the end of the non-void function
without returning anything. -/
inductive GetDocOutcome (α : Type)
  | returned (a : α)
  | raisedModified
  | fellOffEnd
deriving DecidableEq, Repr

/-- The retry loop of do_get_document_internal, translated from the
source.  `tries_left` is the C `int tries_left`; it starts at 5 and the
loop only ever decrements positive values, so a Nat carries it exactly.
`reads` gives the outcome of the attempt numbered `attempt`.  Returns
the outcome and the number of reopen_tables_because_overwritten calls.
The C body is `while (tries_left) { try { ... return document; } catch
(OmDatabaseModifiedError) { if (tries_left-- > 0) reopen; else throw; } }`;
the post-decrement test compares the value before decrementing. -/
def getDocLoop (reads : Nat → ReadAttempt α) : Nat → Nat → GetDocOutcome α × Nat
  | _attempt, 0 => (.fellOffEnd, 0)
  | attempt, t + 1 =>
    match reads attempt with
    | .ok a => (.returned a, 0)
    | .modified =>
      if t + 1 > 0 then
        let r := getDocLoop reads (attempt + 1) t
        (r.1, r.2 + 1)
      else (.raisedModified, 0)

/-- do_get_document_internal as seen from its caller: run the retry
loop starting from attempt 0 with tries_left = 5. -/
def QuartzDatabase.do_get_document_retry (reads : Nat → ReadAttempt OmDocumentContents) :
    GetDocOutcome OmDocumentContents × Nat :=
  getDocLoop reads 0 5

/-! ## Buffered-manager error flow of the mutation entry points -/

/-- A writable database: the read-side facade shares the buffered table
manager, so reads see `buffered`; `committed` is the state the buffer
would collapse to on cancel (the last applied snapshot). -/
structure WDB where
  committed : QuartzState
  buffered : QuartzState
deriving DecidableEq, Repr

/-- cancel() on the buffered table manager discards the entire buffered
change set, including changes buffered by earlier calls. -/
def WDB.cancel (w : WDB) : WDB :=
  { w with buffered := w.committed }

/-- Result of a fallible mutation: a value and the post state, or an
error and the post state. -/
inductive MutRes (ε σ α : Type)
  | ok (a : α) (s : σ)
  | err (e : ε) (s : σ)
deriving DecidableEq, Repr

namespace QuartzWritableDatabase

/-- The try/catch structure of do_add_document, translated from the
source: the whole mutation body runs inside the try; on any error the
buffered manager is cancelled and the error re-raised. -/
def do_add_document_flow (body : QuartzState → MutRes OmErr QuartzState Nat)
    (w : WDB) : MutRes OmErr WDB Nat :=
  match body w.buffered with
  | .ok did s => .ok did { w with buffered := s }
  | .err e _ => .err e w.cancel

/-- The try/catch structure of do_delete_document, translated from the
source: the document is materialised through the read-side
do_get_document_internal BEFORE the try block, so an error there
propagates without cancel(); only errors in the deletion body trigger
cancel() before the re-raise. -/
def do_delete_document_flow (materialise : Except OmErr OmDocumentContents)
    (body : OmDocumentContents → QuartzState → MutRes OmErr QuartzState Unit)
    (w : WDB) : MutRes OmErr WDB Unit :=
  match materialise with
  | .error e => .err e w
  | .ok document =>
    match body document w.buffered with
    | .ok _ s => .ok () { w with buffered := s }
    | .err e _ => .err e w.cancel

/-- do_add_document of the writable database on the error-free path:
the pure body run through the try/catch flow; on success the change set
is left buffered (committed is untouched). -/
def do_add_document (w : WDB) (document : OmDocumentContents) : MutRes OmErr WDB Nat :=
  do_add_document_flow
    (fun s => MutRes.ok (do_add_document_pure s document).1 (do_add_document_pure s document).2) w

end QuartzWritableDatabase

/-- The materialisation step of do_delete_document as an Except value:
the read-side get_document path either yields the document or raises
document-not-found. -/
def materialise_of (s : QuartzState) (did : Nat) : Except OmErr OmDocumentContents :=
  match QuartzDatabase.do_get_document_once s did with
  | none => Except.error (OmErr.docNotFound "Document not found")
  | some document => Except.ok document

/-! ## Entry-point behaviours (which error each stub raises) -/

/-- What a facade entry point does when reached: raise a specific
Om*Error, or fail a debug Assert(false). -/
inductive EntryBehaviour
  | raiseInvalidOperation (msg : String)
  | raiseInternal (msg : String)
  | raiseUnimplemented (msg : String)
  | assertFail
deriving DecidableEq, Repr

/-- True exactly when the behaviour raises OmInvalidOperationError. -/
def isInvalidOperationB : EntryBehaviour → Bool
  | .raiseInvalidOperation _ => true
  | _ => false

/-- True exactly when the behaviour raises OmUnimplementedError. -/
def isUnimplementedB : EntryBehaviour → Bool
  | .raiseUnimplemented _ => true
  | _ => false

namespace QuartzDatabase

/-- Read-only do_begin_session, from the source. -/
def do_begin_session_b (_timeout : Nat) : EntryBehaviour :=
  .raiseInvalidOperation "Cannot begin a modification session: database opened readonly."

/-- Read-only do_end_session, from the source. -/
def do_end_session_b : EntryBehaviour := .assertFail

/-- Read-only do_flush, from the source. -/
def do_flush_b : EntryBehaviour := .assertFail

/-- Read-only do_begin_transaction, from the source. -/
def do_begin_transaction_b : EntryBehaviour := .assertFail

/-- Read-only do_commit_transaction, from the source. -/
def do_commit_transaction_b : EntryBehaviour := .assertFail

/-- Read-only do_cancel_transaction, from the source. -/
def do_cancel_transaction_b : EntryBehaviour := .assertFail

/-- Read-only do_add_document, from the source. -/
def do_add_document_b (_document : OmDocumentContents) : EntryBehaviour :=
  .raiseInternal "QuartzDatabase::do_add_document() called, but QuartzDatabase is not a modifiable database."

/-- Read-only do_delete_document, from the source. -/
def do_delete_document_b (_did : Nat) : EntryBehaviour := .assertFail

/-- Read-only do_replace_document, from the source. -/
def do_replace_document_b (_did : Nat) (_document : OmDocumentContents) : EntryBehaviour :=
  .assertFail

/-- Read-only get_doclength, from the source. -/
def get_doclength_b (_did : Nat) : EntryBehaviour :=
  .raiseUnimplemented "QuartzDatabase::get_doclength() not yet implemented"

/-- Read-only open_position_list, from the source. -/
def open_position_list_b (_did : Nat) (_tname : String) : EntryBehaviour :=
  .raiseUnimplemented "Quartz databases do not support opening positionlist"

end QuartzDatabase

namespace QuartzWritableDatabase

/-- Writable do_begin_transaction, from the source. -/
def do_begin_transaction_b : EntryBehaviour :=
  .raiseUnimplemented "QuartzDatabase::do_begin_transaction() not yet implemented"

/-- Writable do_commit_transaction, from the source. -/
def do_commit_transaction_b : EntryBehaviour :=
  .raiseUnimplemented "QuartzDatabase::do_commit_transaction() not yet implemented"

/-- Writable do_cancel_transaction, from the source. -/
def do_cancel_transaction_b : EntryBehaviour :=
  .raiseUnimplemented "QuartzDatabase::do_cancel_transaction() not yet implemented"

/-- Writable do_replace_document, from the source. -/
def do_replace_document_b (_did : Nat) (_document : OmDocumentContents) : EntryBehaviour :=
  .raiseUnimplemented "QuartzWritableDatabase::do_replace_document() not yet implemented"

/-- Writable get_doclength delegates to the embedded read database. -/
def get_doclength_b (did : Nat) : EntryBehaviour :=
  QuartzDatabase.get_doclength_b did

/-- Writable open_position_list, from the source. -/
def open_position_list_b (_did : Nat) (_tname : String) : EntryBehaviour :=
  .raiseUnimplemented "Quartz databases do not support opening positionlist"

end QuartzWritableDatabase

/-! ## Concrete example states -/

/-- The empty database. -/
def Q0 : QuartzState :=
  { record := [], total_length := 0, doccount := 0, attributes := [],
    termlist := [], lexicon := [], postlist := [], positionlist := [] }

/-- Document 1 of the concrete spec scenario: data "hello", attribute
key 1 with value "a", terms cat (wdf 2, positions 0 and 3) and dog
(wdf 1, position 1). -/
def docA : OmDocumentContents :=
  { data := "hello",
    keys := [(1, "a")],
    terms := [{ tname := "cat", wdf := 2, termfreq := 0, positions := [0, 3] },
              { tname := "dog", wdf := 1, termfreq := 0, positions := [1] }] }

/-- The state after adding docA to the empty database. -/
def sAfterAdd : QuartzState :=
  (QuartzWritableDatabase.do_add_document_pure Q0 docA).2

/-- docA as materialised back from sAfterAdd (termfreq caches filled in
from the lexicon). -/
def docAMat : OmDocumentContents :=
  { data := "hello",
    keys := [(1, "a")],
    terms := [{ tname := "cat", wdf := 2, termfreq := 1, positions := [0, 3] },
              { tname := "dog", wdf := 1, termfreq := 1, positions := [1] }] }

/-- A writable database with a non-empty buffered change set (docA has
been added but not applied). -/
def Wex : WDB := { committed := Q0, buffered := sAfterAdd }

/-- The value-level effect of decrement_termfreq on a lexicon entry:
absent stays absent, a frequency of at most 1 removes the entry,
otherwise the frequency drops by one. -/
def decTermfreqVal : Option Nat → Option Nat
  | none => none
  | some f => if f ≤ 1 then none else some (f - 1)

/-! ## Helper lemmas about the association-list primitives -/

theorem alookup_aset_self [DecidableEq κ] (l : List (κ × β)) (k : κ) (v : β) :
    alookup (aset l k v) k = some v := by
  induction l with
  | nil => simp [aset, alookup]
  | cons p rest ih =>
    by_cases h : p.1 = k
    · simp [aset, alookup, h]
    · simp [aset, alookup, h, ih]

theorem alookup_aset_ne [DecidableEq κ] (l : List (κ × β)) (k k' : κ) (v : β)
    (h : k ≠ k') : alookup (aset l k v) k' = alookup l k' := by
  have h' : k' ≠ k := Ne.symm h
  induction l with
  | nil => simp [aset, alookup, h]
  | cons p rest ih =>
    by_cases hp : p.1 = k
    · simp [aset, alookup, hp, h, h']
    · by_cases hp' : p.1 = k'
      · simp [aset, alookup, hp, hp', h']
      · simp [aset, alookup, hp, hp', ih]

theorem alookup_aerase_self [DecidableEq κ] (l : List (κ × β)) (k : κ) :
    alookup (aerase l k) k = none := by
  induction l with
  | nil => simp [aerase, alookup]
  | cons p rest ih =>
    by_cases h : p.1 = k
    · have hb : (p.1 != k) = false := by simp [h]
      simpa [aerase, List.filter_cons, hb] using ih
    · have hb : (p.1 != k) = true := by simp [h]
      simpa [aerase, List.filter_cons, hb, alookup, h] using ih

theorem alookup_aerase_ne [DecidableEq κ] (l : List (κ × β)) (k k' : κ)
    (h : k ≠ k') : alookup (aerase l k) k' = alookup l k' := by
  induction l with
  | nil => simp [aerase, alookup]
  | cons p rest ih =>
    by_cases hp : p.1 = k
    · have hb : (p.1 != k) = false := by simp [hp]
      have hp' : p.1 ≠ k' := by rw [hp]; exact h
      simpa [aerase, List.filter_cons, hb, alookup, hp'] using ih
    · have hb : (p.1 != k) = true := by simp [hp]
      by_cases hp' : p.1 = k'
      · have h' : k' ≠ k := Ne.symm h
        simp [aerase, List.filter_cons, hb, alookup, hp', h']
      · simpa [aerase, List.filter_cons, hb, alookup, hp'] using ih

theorem alookup_mem [DecidableEq κ] (l : List (κ × β)) (k : κ) (v : β)
    (h : alookup l k = some v) : (k, v) ∈ l := by
  induction l with
  | nil => simp [alookup] at h
  | cons p rest ih =>
    by_cases hp : p.1 = k
    · simp [alookup, hp] at h
      have hkv : (k, v) = p := by
        rw [Prod.ext_iff]
        exact ⟨hp.symm, h.symm⟩
      rw [hkv]
      exact List.mem_cons_self p rest
    · simp [alookup, hp] at h
      exact List.mem_cons_of_mem _ (ih h)

/-! ## Generic fold lemmas -/

/-- Folding steps that all preserve a view preserves the view. -/
theorem foldl_invar {σ α β : Type} (f : σ → α → σ) (V : σ → β) (l : List α)
    (h : ∀ s a, a ∈ l → V (f s a) = V s) : ∀ s, V (l.foldl f s) = V s := by
  induction l with
  | nil => intro s; rfl
  | cons a as ih =>
    intro s
    rw [List.foldl_cons, ih (fun s' a' ha' => h s' a' (List.mem_cons_of_mem _ ha'))]
    exact h s a (List.mem_cons_self _ _)

/-- Folding over a list containing one step that transforms a view by
`g` while every other step preserves it transforms the view by `g`. -/
theorem foldl_set_split {σ α β : Type} (f : σ → α → σ) (V : σ → β) (g : β → β)
    (l1 l2 : List α) (u : α)
    (h1 : ∀ s a, a ∈ l1 → V (f s a) = V s)
    (h2 : ∀ s a, a ∈ l2 → V (f s a) = V s)
    (hu : ∀ s, V (f s u) = g (V s)) :
    ∀ s, V ((l1 ++ u :: l2).foldl f s) = g (V s) := by
  intro s
  rw [List.foldl_append, List.foldl_cons, foldl_invar f V l2 h2, hu,
      foldl_invar f V l1 h1]

/-- Splitting a list at a member whose mapped keys are pairwise
distinct: every other element has a different key. -/
theorem nodup_key_split {α κ : Type} (key : α → κ) (l1 l2 : List α) (u : α)
    (h : ((l1 ++ u :: l2).map key).Nodup) :
    (∀ a ∈ l1, key a ≠ key u) ∧ (∀ a ∈ l2, key a ≠ key u) := by
  rw [List.map_append, List.map_cons, List.nodup_append] at h
  obtain ⟨-, h2, hdisj⟩ := h
  constructor
  · intro a ha hEq
    exact hdisj (hEq ▸ List.mem_map_of_mem key ha) (List.mem_cons_self _ _)
  · intro a ha hEq
    rw [List.nodup_cons] at h2
    exact h2.1 (hEq ▸ List.mem_map_of_mem key ha)

/-! ## Per-operation lookup lemmas -/

theorem increment_termfreq_lex_self (s : QuartzState) (t : String) :
    alookup (QuartzLexicon.increment_termfreq s t).lexicon t
      = some ((alookup s.lexicon t).getD 0 + 1) := by
  unfold QuartzLexicon.increment_termfreq
  cases h : alookup s.lexicon t <;> simp [h, alookup_aset_self]

theorem increment_termfreq_lex_ne (s : QuartzState) (t t' : String) (h : t ≠ t') :
    alookup (QuartzLexicon.increment_termfreq s t).lexicon t' = alookup s.lexicon t' := by
  unfold QuartzLexicon.increment_termfreq
  cases hl : alookup s.lexicon t <;> simp [hl, alookup_aset_ne _ _ _ _ h]

theorem decrement_termfreq_lex_self (s : QuartzState) (t : String) :
    alookup (QuartzLexicon.decrement_termfreq s t).lexicon t
      = decTermfreqVal (alookup s.lexicon t) := by
  unfold QuartzLexicon.decrement_termfreq decTermfreqVal
  cases hl : alookup s.lexicon t with
  | none => simp [hl]
  | some f =>
    by_cases hf : f ≤ 1
    · simp [hl, hf, alookup_aerase_self]
    · simp [hl, hf, alookup_aset_self]

theorem decrement_termfreq_lex_ne (s : QuartzState) (t t' : String) (h : t ≠ t') :
    alookup (QuartzLexicon.decrement_termfreq s t).lexicon t' = alookup s.lexicon t' := by
  unfold QuartzLexicon.decrement_termfreq
  cases hl : alookup s.lexicon t with
  | none => simp [hl]
  | some f =>
    by_cases hf : f ≤ 1
    · simp [hl, hf, alookup_aerase_ne _ _ _ h]
    · simp [hl, hf, alookup_aset_ne _ _ _ _ h]

theorem add_entry_post_self (s : QuartzState) (t : String) (did wdf doclen : Nat) :
    alookup (QuartzPostList.add_entry s t did wdf doclen).postlist t
      = some (insertPosting ((alookup s.postlist t).getD []) (did, wdf, doclen)) := by
  unfold QuartzPostList.add_entry
  simp [alookup_aset_self]

theorem add_entry_post_ne (s : QuartzState) (t t' : String) (did wdf doclen : Nat)
    (h : t ≠ t') :
    alookup (QuartzPostList.add_entry s t did wdf doclen).postlist t'
      = alookup s.postlist t' := by
  unfold QuartzPostList.add_entry
  simp [alookup_aset_ne _ _ _ _ h]

theorem delete_entry_post_self (s : QuartzState) (t : String) (did : Nat) :
    alookup (QuartzPostList.delete_entry s t did).postlist t
      = (alookup s.postlist t).map (fun es => es.filter (fun e => e.1 != did)) := by
  unfold QuartzPostList.delete_entry
  cases hl : alookup s.postlist t <;> simp [hl, alookup_aset_self]

theorem delete_entry_post_ne (s : QuartzState) (t t' : String) (did : Nat) (h : t ≠ t') :
    alookup (QuartzPostList.delete_entry s t did).postlist t' = alookup s.postlist t' := by
  unfold QuartzPostList.delete_entry
  cases hl : alookup s.postlist t <;> simp [hl, alookup_aset_ne _ _ _ _ h]

theorem set_positionlist_pos_self (s : QuartzState) (did : Nat) (t : String)
    (ps : List Nat) :
    alookup (QuartzPositionList.set_positionlist s did t ps).positionlist (did, t)
      = some ps := by
  unfold QuartzPositionList.set_positionlist
  simp [alookup_aset_self]

theorem set_positionlist_pos_ne (s : QuartzState) (did : Nat) (t : String)
    (ps : List Nat) (k : Nat × String) (h : (did, t) ≠ k) :
    alookup (QuartzPositionList.set_positionlist s did t ps).positionlist k
      = alookup s.positionlist k := by
  unfold QuartzPositionList.set_positionlist
  simp [alookup_aset_ne _ _ _ _ h]

theorem delete_positionlist_pos_self (s : QuartzState) (did : Nat) (t : String) :
    alookup (QuartzPositionList.delete_positionlist s did t).positionlist (did, t)
      = none := by
  unfold QuartzPositionList.delete_positionlist
  simp [alookup_aerase_self]

theorem delete_positionlist_pos_ne (s : QuartzState) (did : Nat) (t : String)
    (k : Nat × String) (h : (did, t) ≠ k) :
    alookup (QuartzPositionList.delete_positionlist s did t).positionlist k
      = alookup s.positionlist k := by
  unfold QuartzPositionList.delete_positionlist
  simp [alookup_aerase_ne _ _ _ h]

theorem add_attribute_attr_self (s : QuartzState) (v : String) (did keyno : Nat) :
    alookup (QuartzAttributesManager.add_attribute s v did keyno).attributes (did, keyno)
      = some v := by
  unfold QuartzAttributesManager.add_attribute
  simp [alookup_aset_self]

theorem add_attribute_attr_ne (s : QuartzState) (v : String) (did keyno : Nat)
    (k : Nat × Nat) (h : (did, keyno) ≠ k) :
    alookup (QuartzAttributesManager.add_attribute s v did keyno).attributes k
      = alookup s.attributes k := by
  unfold QuartzAttributesManager.add_attribute
  simp [alookup_aset_ne _ _ _ _ h]

/-! ## Step-level lemmas for the per-term loops -/

theorem addTermStep_lex_self (did L : Nat) (s : QuartzState) (u : OmDocumentTerm) :
    alookup (QuartzWritableDatabase.addTermStep did L s u).lexicon u.tname
      = some ((alookup s.lexicon u.tname).getD 0 + 1) :=
  increment_termfreq_lex_self s u.tname

theorem addTermStep_lex_ne (did L : Nat) (s : QuartzState) (a : OmDocumentTerm)
    (t : String) (h : a.tname ≠ t) :
    alookup (QuartzWritableDatabase.addTermStep did L s a).lexicon t
      = alookup s.lexicon t :=
  increment_termfreq_lex_ne s a.tname t h

theorem addTermStep_post_self (did L : Nat) (s : QuartzState) (u : OmDocumentTerm) :
    alookup (QuartzWritableDatabase.addTermStep did L s u).postlist u.tname
      = some (insertPosting ((alookup s.postlist u.tname).getD []) (did, u.wdf, L)) :=
  add_entry_post_self (QuartzLexicon.increment_termfreq s u.tname) u.tname did u.wdf L

theorem addTermStep_post_ne (did L : Nat) (s : QuartzState) (a : OmDocumentTerm)
    (t : String) (h : a.tname ≠ t) :
    alookup (QuartzWritableDatabase.addTermStep did L s a).postlist t
      = alookup s.postlist t :=
  add_entry_post_ne (QuartzLexicon.increment_termfreq s a.tname) a.tname t did a.wdf L h

theorem addTermStep_pos_self (did L : Nat) (s : QuartzState) (u : OmDocumentTerm) :
    alookup (QuartzWritableDatabase.addTermStep did L s u).positionlist (did, u.tname)
      = some u.positions :=
  set_positionlist_pos_self _ did u.tname u.positions

theorem addTermStep_pos_ne (did L : Nat) (s : QuartzState) (a : OmDocumentTerm)
    (d : Nat) (t : String) (h : a.tname ≠ t) :
    alookup (QuartzWritableDatabase.addTermStep did L s a).positionlist (d, t)
      = alookup s.positionlist (d, t) :=
  set_positionlist_pos_ne _ did a.tname a.positions (d, t)
    (fun hk => h (congrArg Prod.snd hk))

theorem delTermStep_post_self (did : Nat) (s : QuartzState) (u : OmDocumentTerm) :
    alookup (QuartzWritableDatabase.delTermStep did s u).postlist u.tname
      = (alookup s.postlist u.tname).map (fun es => es.filter (fun e => e.1 != did)) :=
  delete_entry_post_self s u.tname did

theorem delTermStep_post_ne (did : Nat) (s : QuartzState) (a : OmDocumentTerm)
    (t : String) (h : a.tname ≠ t) :
    alookup (QuartzWritableDatabase.delTermStep did s a).postlist t
      = alookup s.postlist t :=
  delete_entry_post_ne s a.tname t did h

theorem delTermStep_pos_self (did : Nat) (s : QuartzState) (u : OmDocumentTerm) :
    alookup (QuartzWritableDatabase.delTermStep did s u).positionlist (did, u.tname)
      = none :=
  delete_positionlist_pos_self _ did u.tname

theorem delTermStep_pos_ne (did : Nat) (s : QuartzState) (a : OmDocumentTerm)
    (d : Nat) (t : String) (h : a.tname ≠ t) :
    alookup (QuartzWritableDatabase.delTermStep did s a).positionlist (d, t)
      = alookup s.positionlist (d, t) :=
  delete_positionlist_pos_ne _ did a.tname (d, t) (fun hk => h (congrArg Prod.snd hk))

theorem delTermStep_lex_self (did : Nat) (s : QuartzState) (u : OmDocumentTerm) :
    alookup (QuartzWritableDatabase.delTermStep did s u).lexicon u.tname
      = decTermfreqVal (alookup s.lexicon u.tname) :=
  decrement_termfreq_lex_self _ u.tname

theorem delTermStep_lex_ne (did : Nat) (s : QuartzState) (a : OmDocumentTerm)
    (t : String) (h : a.tname ≠ t) :
    alookup (QuartzWritableDatabase.delTermStep did s a).lexicon t
      = alookup s.lexicon t :=
  decrement_termfreq_lex_ne _ a.tname t h

/-! ## Claim theorems -/

/-- C1: the claim mandates that get_document catch DatabaseModified,
reopen and retry at most 5 times, and re-raise the last
DatabaseModified after the final failing retry.  The code catches,
reopens and retries (second conjunct: a success on a later attempt is
returned), but on the failing input where every attempt raises
DatabaseModified it performs 5 reopen-retries and then exits the while
loop, falling off the end of the function without returning or
re-raising (first conjunct) — the re-raise branch is dead code. -/
theorem claim_C1_retry_exhaustion :
    QuartzDatabase.do_get_document_retry (fun _ => ReadAttempt.modified)
      = (GetDocOutcome.fellOffEnd, 5) ∧
    QuartzDatabase.do_get_document_retry
        (fun k => if k < 2 then ReadAttempt.modified else ReadAttempt.ok docA)
      = (GetDocOutcome.returned docA, 2) := by
  exact ⟨rfl, rfl⟩

/-- C4 counterexample: do_add_document on the read-only database raises
OmInternalError, not the InvalidOperation read-only error the claim
asserts for every mutation entry point. -/
theorem claim_C4_counterexample :
    isInvalidOperationB (QuartzDatabase.do_add_document_b docA) = false ∧
    QuartzDatabase.do_add_document_b docA
      = EntryBehaviour.raiseInternal "QuartzDatabase::do_add_document() called, but QuartzDatabase is not a modifiable database." := by
  exact ⟨rfl, rfl⟩

/-- C4 amended: on the read-only database only do_begin_session raises
the InvalidOperation read-only error; do_add_document raises an
Internal error, and end_session, flush, the transaction trio,
delete_document and replace_document fail a debug assertion instead. -/
theorem claim_C4_readonly_behaviours :
    (∀ timeout : Nat, QuartzDatabase.do_begin_session_b timeout
      = EntryBehaviour.raiseInvalidOperation "Cannot begin a modification session: database opened readonly.") ∧
    (∀ document, QuartzDatabase.do_add_document_b document
      = EntryBehaviour.raiseInternal "QuartzDatabase::do_add_document() called, but QuartzDatabase is not a modifiable database.") ∧
    QuartzDatabase.do_end_session_b = EntryBehaviour.assertFail ∧
    QuartzDatabase.do_flush_b = EntryBehaviour.assertFail ∧
    QuartzDatabase.do_begin_transaction_b = EntryBehaviour.assertFail ∧
    QuartzDatabase.do_commit_transaction_b = EntryBehaviour.assertFail ∧
    QuartzDatabase.do_cancel_transaction_b = EntryBehaviour.assertFail ∧
    (∀ did, QuartzDatabase.do_delete_document_b did = EntryBehaviour.assertFail) ∧
    (∀ did document, QuartzDatabase.do_replace_document_b did document
      = EntryBehaviour.assertFail) := by
  exact ⟨fun _ => rfl, fun _ => rfl, rfl, rfl, rfl, rfl, rfl, fun _ => rfl, fun _ _ => rfl⟩

/-- C9 counterexample: on the read-only database do_replace_document
fails a debug assertion; it does not raise Unimplemented as the claim
asserts for both databases. -/
theorem claim_C9_counterexample :
    isUnimplementedB (QuartzDatabase.do_replace_document_b 1 docA) = false ∧
    QuartzDatabase.do_replace_document_b 1 docA = EntryBehaviour.assertFail := by
  exact ⟨rfl, rfl⟩

/-- C9 amended: get_doclength and open_position_list raise
Unimplemented on both databases (no state is touched: the behaviours
are pure), and replace_document and the transaction trio raise
Unimplemented on the writable database; on the read-only database
those four instead fail a debug assertion. -/
theorem claim_C9_unimplemented_behaviours :
    (∀ did, QuartzDatabase.get_doclength_b did
      = EntryBehaviour.raiseUnimplemented "QuartzDatabase::get_doclength() not yet implemented") ∧
    (∀ did, QuartzWritableDatabase.get_doclength_b did
      = EntryBehaviour.raiseUnimplemented "QuartzDatabase::get_doclength() not yet implemented") ∧
    (∀ did tname, QuartzDatabase.open_position_list_b did tname
      = EntryBehaviour.raiseUnimplemented "Quartz databases do not support opening positionlist") ∧
    (∀ did tname, QuartzWritableDatabase.open_position_list_b did tname
      = EntryBehaviour.raiseUnimplemented "Quartz databases do not support opening positionlist") ∧
    QuartzWritableDatabase.do_begin_transaction_b
      = EntryBehaviour.raiseUnimplemented "QuartzDatabase::do_begin_transaction() not yet implemented" ∧
    QuartzWritableDatabase.do_commit_transaction_b
      = EntryBehaviour.raiseUnimplemented "QuartzDatabase::do_commit_transaction() not yet implemented" ∧
    QuartzWritableDatabase.do_cancel_transaction_b
      = EntryBehaviour.raiseUnimplemented "QuartzDatabase::do_cancel_transaction() not yet implemented" ∧
    (∀ did document, QuartzWritableDatabase.do_replace_document_b did document
      = EntryBehaviour.raiseUnimplemented "QuartzWritableDatabase::do_replace_document() not yet implemented") ∧
    QuartzDatabase.do_begin_transaction_b = EntryBehaviour.assertFail ∧
    (∀ did document, QuartzDatabase.do_replace_document_b did document
      = EntryBehaviour.assertFail) := by
  exact ⟨fun _ => rfl, fun _ => rfl, fun _ _ => rfl, fun _ _ => rfl, rfl, rfl, rfl,
    fun _ _ => rfl, rfl, fun _ _ => rfl⟩

/-- C7: get_avlength_internal returns 0 when the stored document count
is 0 and the stored total length divided by the document count
otherwise. -/
theorem claim_C7_avlength :
    ∀ s : QuartzState,
      QuartzDatabase.get_avlength_internal s
        = if QuartzDatabase.get_doccount_internal s = 0 then 0
          else QuartzRecordManager.get_total_length s / QuartzDatabase.get_doccount_internal s :=
  fun _ => rfl

/-- C8: for a non-empty term name and a well-formed lexicon (stored
frequencies are at least 1, the invariant maintained by the
increment/decrement path), get_termfreq returns 0 for an absent term
and the stored value otherwise, and get_termfreq is 0 exactly when
term_exists is false. -/
theorem claim_C8_termfreq (s : QuartzState) (t : String) (ht : t ≠ "")
    (hwf : lexiconWF s) :
    (QuartzLexicon.get_entry s.lexicon t = none → QuartzDatabase.get_termfreq s t = 0) ∧
    (∀ f, QuartzLexicon.get_entry s.lexicon t = some f →
        QuartzDatabase.get_termfreq s t = f) ∧
    (QuartzDatabase.get_termfreq s t = 0 ↔ QuartzDatabase.term_exists s t = false) := by
  refine ⟨?_, ?_, ?_⟩
  · intro h
    unfold QuartzDatabase.get_termfreq
    rw [h]
  · intro f h
    unfold QuartzDatabase.get_termfreq
    rw [h]
  · unfold QuartzDatabase.get_termfreq QuartzDatabase.term_exists
    cases h : QuartzLexicon.get_entry s.lexicon t with
    | none => simp
    | some f =>
      have hf : 1 ≤ f := hwf (t, f) (alookup_mem _ _ _ h)
      show f = 0 ↔ Option.isSome (some f) = false
      simp
      omega

/-- C8 witness: concrete instance on the database holding docA. -/
theorem claim_C8_termfreq_witness :
    QuartzDatabase.get_termfreq sAfterAdd "cat" = 0
      ↔ QuartzDatabase.term_exists sAfterAdd "cat" = false :=
  (claim_C8_termfreq sAfterAdd "cat" (by decide) (by unfold lexiconWF; decide)).2.2

/-- C2 counterexample: a delete_document call whose materialisation
step raises (the did is absent) propagates the error WITHOUT invoking
cancel, leaving a non-empty buffered change set in place — refuting the
claim that every failing step of a mutation leaves the freshly
cancelled buffer. -/
theorem claim_C2_counterexample :
    QuartzWritableDatabase.do_delete_document_flow
        (materialise_of Wex.buffered 99) (fun _ s => MutRes.ok () s) Wex
      = MutRes.err (OmErr.docNotFound "Document not found") Wex ∧
    Wex.buffered ≠ Wex.cancel.buffered := by
  constructor
  · rfl
  · decide

/-- C2 amended: add_document cancels the whole buffer and re-raises on
any error of its body; delete_document does so only for errors raised
in the deletion steps after materialisation, while a materialisation
error propagates with the buffer untouched; cancel collapses the
buffered state to the committed one. -/
theorem claim_C2_amended (e : OmErr) (w : WDB)
    (bodyA : QuartzState → MutRes OmErr QuartzState Nat)
    (mat : Except OmErr OmDocumentContents)
    (bodyD : OmDocumentContents → QuartzState → MutRes OmErr QuartzState Unit) :
    (∀ s, bodyA w.buffered = MutRes.err e s →
      QuartzWritableDatabase.do_add_document_flow bodyA w = MutRes.err e w.cancel) ∧
    (mat = Except.error e →
      QuartzWritableDatabase.do_delete_document_flow mat bodyD w = MutRes.err e w) ∧
    (∀ document s, mat = Except.ok document →
      bodyD document w.buffered = MutRes.err e s →
      QuartzWritableDatabase.do_delete_document_flow mat bodyD w
        = MutRes.err e w.cancel) ∧
    w.cancel.buffered = w.committed := by
  refine ⟨?_, ?_, ?_, rfl⟩
  · intro s h
    unfold QuartzWritableDatabase.do_add_document_flow
    rw [h]
  · intro h
    unfold QuartzWritableDatabase.do_delete_document_flow
    rw [h]
  · intro document s h1 h2
    simp [QuartzWritableDatabase.do_delete_document_flow, h1, h2]

/-- C2 amended witness: concrete failing add (cancel), failing
materialisation (no cancel) and failing deletion body (cancel). -/
theorem claim_C2_amended_witness :
    QuartzWritableDatabase.do_add_document_flow
        (fun s => MutRes.err (OmErr.injected 0) s) Wex
      = MutRes.err (OmErr.injected 0) Wex.cancel ∧
    QuartzWritableDatabase.do_delete_document_flow (Except.error (OmErr.injected 1))
        (fun _ s => MutRes.ok () s) Wex
      = MutRes.err (OmErr.injected 1) Wex ∧
    QuartzWritableDatabase.do_delete_document_flow (Except.ok docA)
        (fun _ s => MutRes.err (OmErr.injected 2) s) Wex
      = MutRes.err (OmErr.injected 2) Wex.cancel :=
  ⟨(claim_C2_amended (OmErr.injected 0) Wex (fun s => MutRes.err (OmErr.injected 0) s)
      (Except.error (OmErr.injected 1)) (fun _ s => MutRes.ok () s)).1 Wex.buffered rfl,
   (claim_C2_amended (OmErr.injected 1) Wex (fun s => MutRes.ok 0 s)
      (Except.error (OmErr.injected 1)) (fun _ s => MutRes.ok () s)).2.1 rfl,
   (claim_C2_amended (OmErr.injected 2) Wex (fun s => MutRes.ok 0 s)
      (Except.ok docA) (fun _ s => MutRes.err (OmErr.injected 2) s)).2.2.1
      docA Wex.buffered rfl rfl⟩

/-- C10: a delete_document whose materialisation raises propagates the
error with the buffered state untouched (no cancel), and cancel is
invoked exactly for errors raised by the deletion steps after
materialisation. -/
theorem claim_C10_delete_materialise_no_cancel (e : OmErr) (w : WDB)
    (mat : Except OmErr OmDocumentContents)
    (bodyD : OmDocumentContents → QuartzState → MutRes OmErr QuartzState Unit) :
    (mat = Except.error e →
      QuartzWritableDatabase.do_delete_document_flow mat bodyD w = MutRes.err e w) ∧
    (∀ document s, mat = Except.ok document →
      bodyD document w.buffered = MutRes.err e s →
      QuartzWritableDatabase.do_delete_document_flow mat bodyD w
        = MutRes.err e w.cancel) := by
  constructor
  · intro h
    unfold QuartzWritableDatabase.do_delete_document_flow
    rw [h]
  · intro document s h1 h2
    simp [QuartzWritableDatabase.do_delete_document_flow, h1, h2]

/-- C10 witness: deleting the absent docid 42 propagates
document-not-found with the buffer untouched; a failing deletion body
cancels. -/
theorem claim_C10_witness :
    QuartzWritableDatabase.do_delete_document_flow (materialise_of sAfterAdd 42)
        (fun _ s => MutRes.ok () s) Wex
      = MutRes.err (OmErr.docNotFound "Document not found") Wex ∧
    QuartzWritableDatabase.do_delete_document_flow (Except.ok docAMat)
        (fun _ s => MutRes.err (OmErr.injected 3) s) Wex
      = MutRes.err (OmErr.injected 3) Wex.cancel :=
  ⟨(claim_C10_delete_materialise_no_cancel (OmErr.docNotFound "Document not found") Wex
      (materialise_of sAfterAdd 42) (fun _ s => MutRes.ok () s)).1 rfl,
   (claim_C10_delete_materialise_no_cancel (OmErr.injected 3) Wex
      (Except.ok docAMat) (fun _ s => MutRes.err (OmErr.injected 3) s)).2
      docAMat Wex.buffered rfl rfl⟩

/-- C3: deleting document 1 (which holds attribute key 1, value "a")
removes its record, term list, posting entries and position lists, but
leaves its attribute table entry behind (the source marks attribute
removal `FIXME: implement`), contradicting the claim that no table
retains an entry keyed by the docid. -/
theorem claim_C3_attributes_not_removed :
    (QuartzWritableDatabase.do_delete_document_pure sAfterAdd 1).map
        (fun s => (alookup s.attributes (1, 1), alookup s.record 1,
                   alookup s.termlist 1, alookup s.positionlist (1, "cat")))
      = some (some "a", none, none, none) := by
  rfl

/-- C5: add_document computes the new document length as the sum of wdf
over the terms, allocates a non-zero docid by adding the record, stores
each attribute, writes the term list with the new length, adds the new
length to the stored total length (with old length 0), and for each
term increments the lexicon termfreq, inserts (did, wdf, new_doclen)
into its posting list and stores its position list; on success the
allocated docid is returned with the change set buffered (the committed
state is untouched). -/
theorem claim_C5_add_document (w : WDB) (document : OmDocumentContents)
    (hT : (document.terms.map OmDocumentTerm.tname).Nodup)
    (hK : (document.keys.map Prod.fst).Nodup) :
    ∀ did s', QuartzWritableDatabase.do_add_document_pure w.buffered document = (did, s') →
      QuartzWritableDatabase.do_add_document w document
        = MutRes.ok did { w with buffered := s' } ∧
      did = QuartzRecordManager.alloc_docid w.buffered.record ∧
      did ≠ 0 ∧
      alookup s'.record did
        = some (document.data, QuartzWritableDatabase.docLength document) ∧
      (∀ kv ∈ document.keys, alookup s'.attributes (did, kv.1) = some kv.2) ∧
      alookup s'.termlist did
        = some (document.terms.map (fun u => (u.tname, u.wdf)),
                QuartzWritableDatabase.docLength document) ∧
      s'.total_length
        = w.buffered.total_length + QuartzWritableDatabase.docLength document ∧
      (∀ u ∈ document.terms,
        alookup s'.lexicon u.tname
          = some ((alookup w.buffered.lexicon u.tname).getD 0 + 1) ∧
        alookup s'.postlist u.tname
          = some (insertPosting ((alookup w.buffered.postlist u.tname).getD [])
              (did, u.wdf, QuartzWritableDatabase.docLength document)) ∧
        alookup s'.positionlist (did, u.tname) = some u.positions) := by
  intro did s' hds
  set s := w.buffered with hsdef
  set L := QuartzWritableDatabase.docLength document with hLdef
  set d0 := QuartzRecordManager.alloc_docid s.record with hd0def
  set s1 := (QuartzRecordManager.add_record s document.data L).2 with hs1def
  set s2 := document.keys.foldl
      (fun st kv => QuartzAttributesManager.add_attribute st kv.2 d0 kv.1) s1 with hs2def
  set s3 := QuartzTermList.set_entries s2 d0 document.terms L false with hs3def
  set s4 := QuartzRecordManager.modify_total_length s3 0 L with hs4def
  set s5 := document.terms.foldl (QuartzWritableDatabase.addTermStep d0 L) s4 with hs5def
  have hpure : QuartzWritableDatabase.do_add_document_pure s document = (d0, s5) := rfl
  rw [hpure] at hds
  injection hds with h1 h2
  subst h1
  subst h2
  refine ⟨rfl, rfl, Nat.succ_ne_zero _, ?_, ?_, ?_, ?_, ?_⟩
  · have h5 : s5.record = s4.record := by
      rw [hs5def]
      exact foldl_invar (QuartzWritableDatabase.addTermStep d0 L) QuartzState.record document.terms (fun _ _ _ => rfl) s4
    have h2r : s2.record = s1.record := by
      rw [hs2def]
      exact foldl_invar (fun st kv => QuartzAttributesManager.add_attribute st kv.2 d0 kv.1) QuartzState.record document.keys (fun _ _ _ => rfl) s1
    rw [h5]
    show alookup s2.record d0 = some (document.data, L)
    rw [h2r]
    show alookup (aset s.record d0 (document.data, L)) d0 = some (document.data, L)
    exact alookup_aset_self _ _ _
  · intro kv hkv
    have h5 : s5.attributes = s4.attributes := by
      rw [hs5def]
      exact foldl_invar (QuartzWritableDatabase.addTermStep d0 L) QuartzState.attributes document.terms (fun _ _ _ => rfl) s4
    rw [h5]
    show alookup s2.attributes (d0, kv.1) = some kv.2
    obtain ⟨l1, l2, hsplit⟩ := List.append_of_mem hkv
    have hkeys := nodup_key_split Prod.fst l1 l2 kv (by rw [← hsplit]; exact hK)
    rw [hs2def, hsplit]
    exact foldl_set_split _ (fun st => alookup st.attributes (d0, kv.1))
      (fun _ => some kv.2) l1 l2 kv
      (fun st a ha => add_attribute_attr_ne st a.2 d0 a.1 (d0, kv.1)
        (fun hk => hkeys.1 a ha (congrArg Prod.snd hk)))
      (fun st a ha => add_attribute_attr_ne st a.2 d0 a.1 (d0, kv.1)
        (fun hk => hkeys.2 a ha (congrArg Prod.snd hk)))
      (fun st => add_attribute_attr_self st kv.2 d0 kv.1)
      s1
  · have h5 : s5.termlist = s4.termlist := by
      rw [hs5def]
      exact foldl_invar (QuartzWritableDatabase.addTermStep d0 L) QuartzState.termlist document.terms (fun _ _ _ => rfl) s4
    rw [h5]
    show alookup (aset s2.termlist d0 (document.terms.map (fun u => (u.tname, u.wdf)), L)) d0
      = some (document.terms.map (fun u => (u.tname, u.wdf)), L)
    exact alookup_aset_self _ _ _
  · have h5 : s5.total_length = s4.total_length := by
      rw [hs5def]
      exact foldl_invar (QuartzWritableDatabase.addTermStep d0 L) QuartzState.total_length document.terms (fun _ _ _ => rfl) s4
    have h2t : s2.total_length = s1.total_length := by
      rw [hs2def]
      exact foldl_invar (fun st kv => QuartzAttributesManager.add_attribute st kv.2 d0 kv.1) QuartzState.total_length document.keys (fun _ _ _ => rfl) s1
    rw [h5]
    show s2.total_length - 0 + L = s.total_length + L
    rw [h2t]
    show s.total_length - 0 + L = s.total_length + L
    rw [Nat.sub_zero]
  · intro u hu
    obtain ⟨l1, l2, hsplit⟩ := List.append_of_mem hu
    have hnames := nodup_key_split OmDocumentTerm.tname l1 l2 u (by rw [← hsplit]; exact hT)
    have h4lex : s4.lexicon = s.lexicon := by
      show s2.lexicon = s.lexicon
      rw [hs2def]
      exact foldl_invar (fun st kv => QuartzAttributesManager.add_attribute st kv.2 d0 kv.1) QuartzState.lexicon document.keys (fun _ _ _ => rfl) s1
    have h4post : s4.postlist = s.postlist := by
      show s2.postlist = s.postlist
      rw [hs2def]
      exact foldl_invar (fun st kv => QuartzAttributesManager.add_attribute st kv.2 d0 kv.1) QuartzState.postlist document.keys (fun _ _ _ => rfl) s1
    have h4pos : s4.positionlist = s.positionlist := by
      show s2.positionlist = s.positionlist
      rw [hs2def]
      exact foldl_invar (fun st kv => QuartzAttributesManager.add_attribute st kv.2 d0 kv.1) QuartzState.positionlist document.keys (fun _ _ _ => rfl) s1
    refine ⟨?_, ?_, ?_⟩
    · rw [hs5def, hsplit]
      have hsp := foldl_set_split (QuartzWritableDatabase.addTermStep d0 L)
        (fun st => alookup st.lexicon u.tname)
        (fun o => some (o.getD 0 + 1)) l1 l2 u
        (fun st a ha => addTermStep_lex_ne d0 L st a u.tname (hnames.1 a ha))
        (fun st a ha => addTermStep_lex_ne d0 L st a u.tname (hnames.2 a ha))
        (fun st => addTermStep_lex_self d0 L st u) s4
      rw [hsp, h4lex]
    · rw [hs5def, hsplit]
      have hsp := foldl_set_split (QuartzWritableDatabase.addTermStep d0 L)
        (fun st => alookup st.postlist u.tname)
        (fun o => some (insertPosting (o.getD []) (d0, u.wdf, L))) l1 l2 u
        (fun st a ha => addTermStep_post_ne d0 L st a u.tname (hnames.1 a ha))
        (fun st a ha => addTermStep_post_ne d0 L st a u.tname (hnames.2 a ha))
        (fun st => addTermStep_post_self d0 L st u) s4
      rw [hsp, h4post]
    · rw [hs5def, hsplit]
      have hsp := foldl_set_split (QuartzWritableDatabase.addTermStep d0 L)
        (fun st => alookup st.positionlist (d0, u.tname))
        (fun _ => some u.positions) l1 l2 u
        (fun st a ha => addTermStep_pos_ne d0 L st a d0 u.tname (hnames.1 a ha))
        (fun st a ha => addTermStep_pos_ne d0 L st a d0 u.tname (hnames.2 a ha))
        (fun st => addTermStep_pos_self d0 L st u) s4
      rw [hsp]

/-- C5 witness: adding docA to the empty writable database returns
docid 1 with the change set buffered. -/
theorem claim_C5_add_document_witness :
    QuartzWritableDatabase.do_add_document ⟨Q0, Q0⟩ docA
      = MutRes.ok 1 { committed := Q0, buffered := sAfterAdd } :=
  (claim_C5_add_document ⟨Q0, Q0⟩ docA (by decide) (by decide) 1 sAfterAdd (by rfl)).1

/-- C6: delete_document first materialises the current document through
the read-side get_document path, then for each of its terms deletes the
posting entry for (term, did), deletes the position list for
(did, term) and decrements the lexicon termfreq; it then reads the old
document length from the term list and subtracts it from the stored
total length (new length 0), deletes the term list for did and deletes
the record for did (decrementing the doccount). -/
theorem claim_C6_delete_document (s : QuartzState) (did : Nat)
    (document : OmDocumentContents)
    (hdoc : QuartzDatabase.do_get_document_once s did = some document)
    (hT : (document.terms.map OmDocumentTerm.tname).Nodup) :
    QuartzWritableDatabase.do_delete_document_pure s did
      = some (QuartzWritableDatabase.do_delete_document_body s did document) ∧
    (∀ u ∈ document.terms,
      alookup (QuartzWritableDatabase.do_delete_document_body s did document).postlist u.tname
        = (alookup s.postlist u.tname).map (fun es => es.filter (fun e => e.1 != did)) ∧
      alookup (QuartzWritableDatabase.do_delete_document_body s did document).positionlist
          (did, u.tname) = none ∧
      alookup (QuartzWritableDatabase.do_delete_document_body s did document).lexicon u.tname
        = decTermfreqVal (alookup s.lexicon u.tname)) ∧
    (QuartzWritableDatabase.do_delete_document_body s did document).total_length
      = s.total_length - QuartzTermList.get_doclength_stored s did ∧
    alookup (QuartzWritableDatabase.do_delete_document_body s did document).termlist did
      = none ∧
    alookup (QuartzWritableDatabase.do_delete_document_body s did document).record did
      = none ∧
    (QuartzWritableDatabase.do_delete_document_body s did document).doccount
      = s.doccount - 1 := by
  set s1 := document.terms.foldl (QuartzWritableDatabase.delTermStep did) s with hs1def
  have h1term : s1.termlist = s.termlist := by
    rw [hs1def]
    exact foldl_invar (QuartzWritableDatabase.delTermStep did) QuartzState.termlist
      document.terms (fun _ _ _ => rfl) s
  have h1tot : s1.total_length = s.total_length := by
    rw [hs1def]
    exact foldl_invar (QuartzWritableDatabase.delTermStep did) QuartzState.total_length
      document.terms (fun _ _ _ => rfl) s
  have h1rec : s1.record = s.record := by
    rw [hs1def]
    exact foldl_invar (QuartzWritableDatabase.delTermStep did) QuartzState.record
      document.terms (fun _ _ _ => rfl) s
  have h1cnt : s1.doccount = s.doccount := by
    rw [hs1def]
    exact foldl_invar (QuartzWritableDatabase.delTermStep did) QuartzState.doccount
      document.terms (fun _ _ _ => rfl) s
  have hbody : QuartzWritableDatabase.do_delete_document_body s did document
      = QuartzRecordManager.delete_record
          (QuartzTermList.delete_termlist
            (QuartzRecordManager.modify_total_length s1
              (QuartzTermList.get_doclength_stored s1 did) 0) did) did := rfl
  refine ⟨?_, ?_, ?_, ?_, ?_, ?_⟩
  · unfold QuartzWritableDatabase.do_delete_document_pure
    rw [hdoc]
  · intro u hu
    obtain ⟨l1, l2, hsplit⟩ := List.append_of_mem hu
    have hnames := nodup_key_split OmDocumentTerm.tname l1 l2 u (by rw [← hsplit]; exact hT)
    refine ⟨?_, ?_, ?_⟩
    · show alookup s1.postlist u.tname = _
      rw [hs1def, hsplit]
      exact foldl_set_split (QuartzWritableDatabase.delTermStep did)
        (fun st => alookup st.postlist u.tname)
        (fun o => o.map (fun es => es.filter (fun e => e.1 != did))) l1 l2 u
        (fun st a ha => delTermStep_post_ne did st a u.tname (hnames.1 a ha))
        (fun st a ha => delTermStep_post_ne did st a u.tname (hnames.2 a ha))
        (fun st => delTermStep_post_self did st u) s
    · show alookup s1.positionlist (did, u.tname) = none
      rw [hs1def, hsplit]
      exact foldl_set_split (QuartzWritableDatabase.delTermStep did)
        (fun st => alookup st.positionlist (did, u.tname))
        (fun _ => none) l1 l2 u
        (fun st a ha => delTermStep_pos_ne did st a did u.tname (hnames.1 a ha))
        (fun st a ha => delTermStep_pos_ne did st a did u.tname (hnames.2 a ha))
        (fun st => delTermStep_pos_self did st u) s
    · have hlex := foldl_set_split (QuartzWritableDatabase.delTermStep did)
        (fun st => alookup st.lexicon u.tname)
        decTermfreqVal l1 l2 u
        (fun st a ha => delTermStep_lex_ne did st a u.tname (hnames.1 a ha))
        (fun st a ha => delTermStep_lex_ne did st a u.tname (hnames.2 a ha))
        (fun st => delTermStep_lex_self did st u) s
      show alookup s1.lexicon u.tname = decTermfreqVal (alookup s.lexicon u.tname)
      rw [hs1def, hsplit]
      exact hlex
  · rw [hbody]
    show s1.total_length - QuartzTermList.get_doclength_stored s1 did + 0
      = s.total_length - QuartzTermList.get_doclength_stored s did
    have hdl : QuartzTermList.get_doclength_stored s1 did
        = QuartzTermList.get_doclength_stored s did := by
      unfold QuartzTermList.get_doclength_stored
      rw [h1term]
    rw [hdl, h1tot, Nat.add_zero]
  · rw [hbody]
    show alookup (aerase (QuartzRecordManager.modify_total_length s1
        (QuartzTermList.get_doclength_stored s1 did) 0).termlist did) did = none
    exact alookup_aerase_self _ _
  · rw [hbody]
    show alookup (aerase (QuartzTermList.delete_termlist
        (QuartzRecordManager.modify_total_length s1
          (QuartzTermList.get_doclength_stored s1 did) 0) did).record did) did = none
    exact alookup_aerase_self _ _
  · rw [hbody]
    show s1.doccount - 1 = s.doccount - 1
    rw [h1cnt]

/-- C6 witness: deleting document 1 from the database holding docA goes
through the materialised document docAMat. -/
theorem claim_C6_delete_document_witness :
    QuartzWritableDatabase.do_delete_document_pure sAfterAdd 1
      = some (QuartzWritableDatabase.do_delete_document_body sAfterAdd 1 docAMat) :=
  (claim_C6_delete_document sAfterAdd 1 docAMat (by rfl) (by decide)).1
